import Mathlib

set_option maxRecDepth 16384

/-!
Verification development for the core of the Antidote Intelligence repository
(`python/antidote.py`): the `HypothesisStore`, the metrics computation, the
predicate compiler (`create_filter_script`) and the corpus filter
(`filter_data`).

Modelling conventions:
* Python numbers: `int` is embedded as `ℤ` (or `ℕ` where the source value is a
  count), Python float arithmetic is embedded exactly over `ℚ`.
* Fallible evaluation of untrusted expressions is embedded as
  `Except PyError PyVal`.
* A generated filter expression is embedded as a `PyExpression`: its source
  text (used by the static text screening of `create_filter_script`) together
  with its two denotations - the result of Python `eval` of that text with
  the single variable `fname` bound to a candidate filename, once in the
  full-builtins validation environment and once in the restricted production
  environment of `filter_data`, which differ.
* The external OpenAI gateway (`call_openai`, wrapped in `tenacity.retry`) is
  embedded as an `Except GatewayError α` input: `Except.error` is the
  exception that propagates once the three retries are exhausted.
* The filesystem touched by `filter_data` is embedded as an association list
  from paths to file contents.
-/

/-- Contiguous-sublist test on character lists. -/
def listContainsSub (pat : List Char) : List Char → Bool
  | [] => pat.isEmpty
  | c :: t => pat.isPrefixOf (c :: t) || listContainsSub pat t

/-- Substring test: the model of the Python `pat in s` operator on strings
(used throughout the static screening and the fallback keyword ladder). -/
def strContains (s pat : String) : Bool := listContainsSub pat.data s.data

/-- Model of Python `s.startswith(pre)`, stated on the underlying character
lists so that prefix facts are provable for arbitrary suffixes. -/
def pyStartsWith (s pre : String) : Bool := pre.data.isPrefixOf s.data

/-- Did a fallible evaluation succeed (i.e. Python did not raise)? -/
def exceptOk {ε α : Type} : Except ε α → Bool
  | Except.ok _ => true
  | Except.error _ => false

/-- A raised Python exception: its class name (e.g. `"ZeroDivisionError"`,
used for the error tally of `filter_data`) and its message. -/
structure PyError where
  name : String
  msg : String
  deriving DecidableEq

/-- The Python values our claims exercise (results of filter expressions:
booleans, the error-marker strings, and the ints produced along the way). -/
inductive PyVal where
  | bool (b : Bool)
  | int (n : ℤ)
  | str (s : String)
  | none
  deriving DecidableEq

/-- Python truthiness, as used by `if result:` in the `filter_data` loop. -/
def pyTruthy : PyVal → Bool
  | PyVal.bool b => b
  | PyVal.int n => n != 0
  | PyVal.str s => s != ""
  | PyVal.none => false

/-- Model of Python `s.isdigit()` for the ASCII filenames these expressions
see: nonempty and all decimal digits. -/
def pyIsDigit (s : String) : Bool := !s.data.isEmpty && s.data.all Char.isDigit

/-- Decimal value of an all-digit string. -/
def digitsToNat (s : String) : ℕ := s.foldl (fun n c => n * 10 + (c.toNat - 48)) 0

/-- Model of Python `int(s)` on the nonnegative decimal literals that reach it
in this code; any other string raises `ValueError`, exactly as `int` does. -/
def pyInt (s : String) : Except PyError ℤ :=
  if pyIsDigit s then Except.ok (Int.ofNat (digitsToNat s))
  else Except.error { name := "ValueError", msg := "invalid literal for int() with base 10" }

/-- Python `round` to the nearest integer, halves to the even neighbour. -/
def pyRound (q : ℚ) : ℤ :=
  if q - ⌊q⌋ < (1 : ℚ)/2 then ⌊q⌋
  else if q - ⌊q⌋ > (1 : ℚ)/2 then ⌊q⌋ + 1
  else if ⌊q⌋ % 2 = 0 then ⌊q⌋ else ⌊q⌋ + 1

/-- Python `round(q, 2)`, as used on every returned metric. -/
def pyRound2 (q : ℚ) : ℚ := (pyRound (q * 100) : ℚ) / 100

/-- Python `int(q)` on a float: truncation toward zero. -/
def pyTrunc (q : ℚ) : ℤ := if 0 ≤ q then ⌊q⌋ else ⌈q⌉

/-- First-occurrence deduplication of a character list: the model of Python
`set(fname)` as it is consumed here (only via order-insensitive `any`,
`sum` and `len`). -/
def dedupChars (l : List Char) : List Char :=
  l.foldl (fun acc c => if acc.contains c then acc else acc ++ [c]) []

/-- Model of Python `s.isalnum()`: nonempty and all alphanumeric. -/
def pyStrIsAlnum (s : String) : Bool := !s.data.isEmpty && s.data.all Char.isAlphanum

/-- Model of Python `s.lower()` (the filenames and hypotheses here are ASCII,
where `Char.toLower` agrees with Python). -/
def pyLower (s : String) : String := String.mk (s.data.map Char.toLower)

/-- Lexicographic code-point comparison of character lists: Python string `<`. -/
def charListLt : List Char → List Char → Bool
  | _, [] => false
  | [], _ :: _ => true
  | a :: as, b :: bs => a.toNat < b.toNat || (a.toNat == b.toNat && charListLt as bs)

/-- Insert a string into a sorted list, preserving ascending order. -/
def insertSorted (s : String) : List String → List String
  | [] => [s]
  | t :: ts => if charListLt t.data s.data then t :: insertSorted s ts else s :: t :: ts

/-- Ascending lexicographic sort: the model of Python `sorted(words)`. -/
def sortStrings (l : List String) : List String := l.foldr insertSorted []

/-- Splitting step for whitespace word-splitting (builds words right to left). -/
def addChar (c : Char) (acc : List (List Char)) : List (List Char) :=
  if c.isWhitespace then [] :: acc
  else match acc with
    | [] => [[c]]
    | w :: ws => (c :: w) :: ws

/-- Model of Python `text.split()`: split on whitespace runs, dropping empty
pieces. -/
def splitWsChars (l : List Char) : List String :=
  ((l.foldr addChar []).filter (fun w => !w.isEmpty)).map String.mk

/-- Model of Python `sep.join(words)`. -/
def joinSep (sep : String) : List String → String
  | [] => ""
  | [w] => w
  | w :: ws => w ++ sep ++ joinSep sep ws

/-- Deterministic 128-bit content hash: stand-in for the external library call
`hashlib.md5(text.encode()).hexdigest()` (antidote.py line 62). Every claim
about fingerprints depends only on the digest being a function of its input. -/
def md5_digest (s : String) : ℕ :=
  s.data.foldl (fun h c => (h * 131 + c.toNat + 1) % (2 ^ 128)) 7

/-! ## HypothesisStore (antidote.py lines 24-101) -/

/-- One stored hypothesis: text, run id, and `time.strftime` timestamp
(antidote.py lines 68-72). -/
structure HypothesisRecord where
  hypothesis : String
  run_id : ℕ
  timestamp : String
  deriving DecidableEq

/-- The JSON document held in `self.hypotheses`: parallel lists of records and
fingerprints (`{"hypotheses": [], "hash_values": []}`). -/
structure StoreData where
  hypotheses : List HypothesisRecord
  hash_values : List ℕ
  deriving DecidableEq

/-- A `HypothesisStore`: its in-memory data plus the persisted store file
content (`none` when the file does not exist yet). -/
structure HypothesisStoreState where
  data : StoreData
  persisted : Option StoreData
  deriving DecidableEq

/-- A freshly constructed store whose file does not exist
(`_load_hypotheses` returns the empty document). -/
def empty_store : HypothesisStoreState :=
  { data := { hypotheses := [], hash_values := [] }, persisted := Option.none }

/-- The normalisation inside `_get_hypothesis_hash` (antidote.py lines 58-61):
lower-case, keep only alphanumeric and whitespace characters, split into
words, sort the words. -/
def normalized_words (hypothesis : String) : List String :=
  let lowered := pyLower hypothesis
  let stripped := lowered.data.filter (fun c => c.isAlphanum || c.isWhitespace)
  sortStrings (splitWsChars stripped)

/-- `HypothesisStore._get_hypothesis_hash` (antidote.py lines 52-62): hash of
the sorted normalised words rejoined with single spaces. -/
def get_hypothesis_hash (hypothesis : String) : ℕ :=
  md5_digest (joinSep " " (normalized_words hypothesis))

/-- `HypothesisStore.add_hypothesis` (antidote.py lines 64-77): append the
record and its fingerprint, then flush to the store file; returns `True`.
The `time.strftime` timestamp is passed in as `now`. -/
def add_hypothesis (s : HypothesisStoreState) (hypothesis : String) (run_id : ℕ)
    (now : String) : Bool × HypothesisStoreState :=
  let h_hash := get_hypothesis_hash hypothesis
  let data2 : StoreData :=
    { hypotheses := s.data.hypotheses ++ [{ hypothesis := hypothesis, run_id := run_id, timestamp := now }],
      hash_values := s.data.hash_values ++ [h_hash] }
  (true, { data := data2, persisted := Option.some data2 })

/-- `HypothesisStore.is_new_hypothesis` (antidote.py lines 79-82): membership
test of the fingerprint; the state is returned unchanged because the body
performs no assignment and no save. -/
def is_new_hypothesis (s : HypothesisStoreState) (hypothesis : String) :
    Bool × HypothesisStoreState :=
  (!(s.data.hash_values.contains (get_hypothesis_hash hypothesis)), s)

/-- `HypothesisStore.get_all_hypotheses` (antidote.py lines 84-86). -/
def get_all_hypotheses (s : HypothesisStoreState) :
    List HypothesisRecord × HypothesisStoreState :=
  (s.data.hypotheses, s)

/-- The numbered-list formatting of `get_history_for_prompt`
(antidote.py lines 96-99). -/
def format_history (recent : List HypothesisRecord) : String :=
  (recent.foldl
    (fun (acc : String × ℕ) h => (acc.1 ++ toString acc.2 ++ ". " ++ h.hypothesis ++ "\n", acc.2 + 1))
    ("Previously attempted hypotheses:\n", 1)).1

/-- `HypothesisStore.get_history_for_prompt` (antidote.py lines 88-101):
format the most recent `max_length` hypotheses (Python `[-max_length:]`,
which is the whole list when `max_length = 0`); empty string for an empty
store. -/
def get_history_for_prompt (s : HypothesisStoreState) (max_length : ℕ) :
    String × HypothesisStoreState :=
  if s.data.hypotheses.isEmpty then ("", s)
  else
    let recent := if max_length = 0 then s.data.hypotheses
      else s.data.hypotheses.drop (s.data.hypotheses.length - max_length)
    (format_history recent, s)

/-! ## Metrics (antidote.py lines 132-201) -/

/-- The heuristic total-bad extrapolation of `calculate_metrics`
(antidote.py line 146): `max(1, int(bad_files / max(0.1, confidence)))`,
with Python `int` truncating the float quotient. -/
def estimated_total_bad (bad_files : ℤ) (confidence : ℚ) : ℤ :=
  max 1 (pyTrunc ((bad_files : ℚ) / max ((1 : ℚ)/10) confidence))

/-- `false_negatives` of `calculate_metrics` (antidote.py line 147):
the extrapolated total minus the true positives. -/
def false_negatives (bad_files : ℤ) (confidence : ℚ) : ℤ :=
  estimated_total_bad bad_files confidence - bad_files

/-- Modelled from the claim's words (C6): the same extrapolation but with the
quotient rounded to the nearest integer, for comparison with the source's
truncating `estimated_total_bad`. -/
def claim_estimated_total_bad (bad_files : ℤ) (confidence : ℚ) : ℤ :=
  max 1 (pyRound ((bad_files : ℚ) / max ((1 : ℚ)/10) confidence))

/-- A verdict: text plus weighted score (antidote.py lines 198-201). -/
structure Verdict where
  text : String
  score : ℚ
  deriving DecidableEq

/-- The metrics dictionary returned by `calculate_metrics`
(antidote.py lines 167-174); every numeric entry is `round(x, 2)`. -/
structure Metrics where
  precision : ℚ
  recall_metric : ℚ
  f1_score : ℚ
  accuracy : ℚ
  confidence : ℚ
  verdict : Verdict
  deriving DecidableEq

/-- `AntidoteIntelligence._generate_verdict` (antidote.py lines 176-201):
weighted score 0.25 precision + 0.2 recall_metric + 0.3 f1 + 0.25 confidence,
bucketed at 0.8 / 0.6 / 0.4 / 0.2 with `>=` comparisons. -/
def generate_verdict (precision recall_metric f1_score accuracy confidence : ℚ) : Verdict :=
  let weighted_score := precision * ((25 : ℚ)/100) + recall_metric * ((2 : ℚ)/10) +
    f1_score * ((3 : ℚ)/10) + confidence * ((25 : ℚ)/100)
  let text :=
    if weighted_score ≥ (8 : ℚ)/10 then
      "Excellent - This hypothesis very effectively identifies bad data"
    else if weighted_score ≥ (6 : ℚ)/10 then
      "Good - This hypothesis is reliable at identifying bad data"
    else if weighted_score ≥ (4 : ℚ)/10 then
      "Fair - This hypothesis finds some bad data but may have false positives"
    else if weighted_score ≥ (2 : ℚ)/10 then
      "Poor - This hypothesis is unreliable and has many false positives"
    else "Very Poor - This hypothesis fails to meaningfully identify bad data"
  { text := text, score := pyRound2 weighted_score }

/-- `AntidoteIntelligence.calculate_metrics` (antidote.py lines 132-174),
with Python float arithmetic embedded exactly over `ℚ`. The `accuracy`
parameter of `_generate_verdict` is passed but unused by the source. -/
def calculate_metrics (bad_files total_files : ℤ) (confidence : ℚ) : Metrics :=
  let true_positives := bad_files
  let false_positives := total_files - bad_files
  let etb := estimated_total_bad bad_files confidence
  let fn := etb - true_positives
  let precision : ℚ := (true_positives : ℚ) / ((max 1 (true_positives + false_positives) : ℤ) : ℚ)
  let recall_metric : ℚ := (true_positives : ℚ) / ((max 1 (true_positives + fn) : ℤ) : ℚ)
  let f1_score : ℚ :=
    if precision + recall_metric > 0 then
      2 * (precision * recall_metric) / max ((1 : ℚ)/1000) (precision + recall_metric)
    else 0
  let dataset_size_estimate := max (total_files * 10) (total_files + etb)
  let true_negatives := dataset_size_estimate - true_positives - false_positives - fn
  let accuracy : ℚ := ((true_positives + true_negatives : ℤ) : ℚ) / ((dataset_size_estimate : ℤ) : ℚ)
  let verdict := generate_verdict precision recall_metric f1_score accuracy confidence
  { precision := pyRound2 precision, recall_metric := pyRound2 recall_metric,
    f1_score := pyRound2 f1_score, accuracy := pyRound2 accuracy,
    confidence := pyRound2 confidence, verdict := verdict }

/-- The denominators of the divisions `calculate_metrics` actually performs at
a given input, in source order: the extrapolation denominator `max(0.1, C)`
(line 146), the precision denominator (line 150), the recall_metric denominator
(line 151), the f1 denominator when that branch is taken (line 156), and the
accuracy denominator (line 162). -/
def metrics_divisors (bad_files total_files : ℤ) (confidence : ℚ) : List ℚ :=
  let true_positives := bad_files
  let false_positives := total_files - bad_files
  let etb := estimated_total_bad bad_files confidence
  let fn := etb - true_positives
  let precision : ℚ := (true_positives : ℚ) / ((max 1 (true_positives + false_positives) : ℤ) : ℚ)
  let recall_metric : ℚ := (true_positives : ℚ) / ((max 1 (true_positives + fn) : ℤ) : ℚ)
  [max ((1 : ℚ)/10) confidence,
   ((max 1 (true_positives + false_positives) : ℤ) : ℚ),
   ((max 1 (true_positives + fn) : ℤ) : ℚ)] ++
  (if precision + recall_metric > 0 then [max ((1 : ℚ)/1000) (precision + recall_metric)] else []) ++
  [((max (total_files * 10) (total_files + etb) : ℤ) : ℚ)]

/-! ## Filter expressions and the predicate compiler (antidote.py lines 362-528) -/

/-- The error that `call_openai` re-raises once its three `tenacity` retries
are exhausted (antidote.py lines 248-278). -/
structure GatewayError where
  msg : String
  deriving DecidableEq

/-- A candidate filter expression, as handed back by the model (after the
strip/backtick cleanup of antidote.py lines 413-416): its source text, which
the static screening inspects, together with its two denotations,
`Except.error` being a raised exception. The source evaluates expression
text at two different call sites, both using the two-dictionary form of
`eval` - under which a name inside a comprehension or generator body
resolves through the globals dictionary only:
* `evalFull` is the result of the validation-time
  `eval(expression, {}, {"fname": n})` (antidote.py line 462), whose empty
  globals dictionary receives the real, full `__builtins__`;
* `evalSafe` is the result of the production
  `eval(code, {"__builtins__": safe_builtins}, {"fname": n})` inside
  `filter_data` (antidote.py line 579), whose builtins are the restricted
  allow-list of lines 557-577.
An expression using a builtin outside the allow-list can therefore succeed
under `evalFull` yet raise `NameError` under `evalSafe`. -/
structure PyExpression where
  text : String
  evalFull : String → Except PyError PyVal
  evalSafe : String → Except PyError PyVal

/-- Builds an expression whose text references, outside comprehension
bodies, only `fname`, constants and builtins present in both environments
(`int`, `len`, `any`, `sum`, `set` and string methods are all in the
`safe_builtins` allow-list): its denotation is then the same under the
validation and the production evaluation. -/
def envIndependent (text : String) (d : String → Except PyError PyVal) : PyExpression :=
  { text := text, evalFull := d, evalSafe := d }

/-- The banned module list of the static screening (antidote.py line 424). -/
def banned_modules : List String := ["string", "re", "math", "os", "sys", "io", "pathlib", "glob"]

/-- The banned function list of the static screening (antidote.py line 425). -/
def banned_functions : List String := ["open", "read", "readlines", "readline", "file"]

/-- Screening step of antidote.py lines 428-430: some banned module name
followed by a dot occurs in the expression text (raises `NameError`). -/
def bannedModuleTrips (t : String) : Bool :=
  banned_modules.any (fun m => strContains t (m ++ "."))

/-- Screening step of antidote.py lines 433-435: some banned function name
followed by an opening parenthesis occurs in the text (raises `ValueError`). -/
def bannedFunctionTrips (t : String) : Bool :=
  banned_functions.any (fun f => strContains t (f ++ "("))

/-- Screening step of antidote.py lines 438-440: the multiplication
heuristic. `True` covers both its `raise SyntaxError` outcomes and the
`IndexError`s the check itself raises on an empty segment; either way
control lands in the `except` branch. -/
def multiplicationCheckTrips (t : String) : Bool :=
  strContains t "*" && !(["*=", "* ", " *", "*."].any (fun x => strContains t x)) &&
    (let before := t.data.takeWhile (fun c => c != '*')
     let after := ((t.data.dropWhile (fun c => c != '*')).drop 1).takeWhile (fun c => c != '*')
     if before.isEmpty then true
     else if (before.getLast?.getD ' ').isAlpha then true
     else if after.isEmpty then true
     else (after.headD ' ').isAlpha)

/-- The generator patterns of antidote.py line 443. -/
def generator_patterns : List String :=
  ["any(", "all(", "sum(", "[x for", "[c for", "[char for", "[letter for"]

/-- Screening step of antidote.py lines 443-453: heuristic detection of
undefined loop variables in generator expressions (raises `NameError`). -/
def generatorCheckTrips (t : String) : Bool :=
  generator_patterns.any (fun p => strContains t p) &&
  ((strContains t " for char in " && !(strContains t "char =")) ||
   (strContains t " for item in " && !(strContains t "item =")) ||
   (strContains t " for file in " && !(strContains t "file =")))

/-- The dummy-filename battery of the dynamic validation
(antidote.py lines 456-457), verbatim. -/
def test_filenames : List String :=
  ["sample.txt", "0.txt", "a.txt", "", "file with spaces.txt", "file-with-hyphen.txt",
   "ALL_CAPS.TXT", "12345.dat", "very_very_long_filename_with_underscores.log"]

/-- The whole `try` block of `create_filter_script` (antidote.py
lines 422-471) succeeds: no static screening step trips and `safe_test_eval`
raises on none of the battery filenames - under the validation environment
`evalFull` (line 462), not the production one. -/
def validationPasses (e : PyExpression) : Bool :=
  !bannedModuleTrips e.text && !bannedFunctionTrips e.text &&
  !multiplicationCheckTrips e.text && !generatorCheckTrips e.text &&
  test_filenames.all (fun n => exceptOk (e.evalFull n))

/-- Python `fname.split('.')[0]`: the characters before the first dot. -/
def firstDotSegment (s : String) : String :=
  String.mk (s.data.takeWhile (fun c => c != '.'))

/-- The shared denotation of the two "repeated" fallbacks
(antidote.py lines 495, 498 and 500). Their generator body
`fname.count(c) > ...` references `fname`, and under the two-dictionary
`eval` of both call sites a name inside a generator body resolves through
the globals dictionary only, where `fname` is absent: the first time the
body runs, `NameError: name \x27fname\x27 is not defined` is raised. The
body runs exactly when some character of `set(fname)` passes the
`c.isalpha()` filter, i.e. when the filename contains an alphabetic
character; otherwise the generator is empty and `any` returns `False`
without raising. The `> 1` / `> 2` comparison is never reached, so both
texts share this denotation, identical in the two environments. -/
def repeat_fallback_raises (fname : String) : Except PyError PyVal :=
  if fname.data.any Char.isAlpha then
    Except.error { name := "NameError", msg := "name \x27fname\x27 is not defined" }
  else Except.ok (PyVal.bool false)

/-- Fallback for "even" (antidote.py line 479). -/
def fallbackEven : PyExpression :=
  envIndependent
    "int(fname.split(\x27.\x27)[0]) % 2 == 0 if fname.split(\x27.\x27)[0].isdigit() else False"
    (fun fname =>
      let stem := firstDotSegment fname
      if pyIsDigit stem then (pyInt stem).map (fun n => PyVal.bool (n % 2 == 0))
      else Except.ok (PyVal.bool false))

/-- Fallback for "odd" (antidote.py line 481). -/
def fallbackOdd : PyExpression :=
  envIndependent
    "int(fname.split(\x27.\x27)[0]) % 2 != 0 if fname.split(\x27.\x27)[0].isdigit() else False"
    (fun fname =>
      let stem := firstDotSegment fname
      if pyIsDigit stem then (pyInt stem).map (fun n => PyVal.bool (n % 2 != 0))
      else Except.ok (PyVal.bool false))

/-- Fallback for "special character" / "non-alpha" (antidote.py line 483);
its generator body references only the loop variable `c`, so it is safe. -/
def fallbackSpecialChar : PyExpression :=
  envIndependent "any(not c.isalnum() and not c.isspace() for c in fname)"
    (fun fname =>
      Except.ok (PyVal.bool (fname.data.any (fun c => !c.isAlphanum && !c.isWhitespace))))

/-- Fallback for "length" with "line" (antidote.py line 486). -/
def fallbackLen8 : PyExpression :=
  envIndependent "len(fname) > 8"
    (fun fname => Except.ok (PyVal.bool (fname.data.length > 8)))

/-- Fallback for "length" / "long" (antidote.py line 488). -/
def fallbackLen10 : PyExpression :=
  envIndependent "len(fname) > 10"
    (fun fname => Except.ok (PyVal.bool (fname.data.length > 10)))

/-- Fallback for "short" (antidote.py line 490). -/
def fallbackShort : PyExpression :=
  envIndependent "len(fname) < 8"
    (fun fname => Except.ok (PyVal.bool (fname.data.length < 8)))

/-- Fallback for "number" / "digit" (antidote.py line 492). -/
def fallbackDigit : PyExpression :=
  envIndependent "any(c.isdigit() for c in fname)"
    (fun fname => Except.ok (PyVal.bool (fname.data.any Char.isDigit)))

/-- Fallback for repeated characters (antidote.py lines 495 and 500): its
generator body references `fname`, so it raises `NameError` on every
filename containing a letter (see `repeat_fallback_raises`). -/
def fallbackRepeatChar : PyExpression :=
  envIndependent "any(fname.count(c) > 1 for c in set(fname) if c.isalpha())"
    repeat_fallback_raises

/-- Fallback for repeated words/phrases (antidote.py line 498): same
`NameError` behaviour as `fallbackRepeatChar`. -/
def fallbackRepeatWord : PyExpression :=
  envIndependent "any(fname.count(c) > 2 for c in set(fname) if c.isalpha())"
    repeat_fallback_raises

/-- Fallback for "uppercase" (antidote.py line 502); the generator bodies are
the constant `1` and the filters reference only `c`, so it is safe. -/
def fallbackUpper : PyExpression :=
  envIndependent "sum(1 for c in fname if c.isupper()) > sum(1 for c in fname if c.islower())"
    (fun fname =>
      Except.ok (PyVal.bool
        (fname.data.countP (fun c => c.isUpper) > fname.data.countP (fun c => c.isLower))))

/-- Fallback for "lowercase" (antidote.py line 504). -/
def fallbackLower : PyExpression :=
  envIndependent "sum(1 for c in fname if c.islower()) > sum(1 for c in fname if c.isupper()) * 2"
    (fun fname =>
      Except.ok (PyVal.bool
        (fname.data.countP (fun c => c.isLower) > fname.data.countP (fun c => c.isUpper) * 2)))

/-- Fallback for "case" (antidote.py line 506). -/
def fallbackCase : PyExpression :=
  envIndependent "any(c.isupper() for c in fname) and any(c.islower() for c in fname)"
    (fun fname =>
      Except.ok (PyVal.bool (fname.data.any Char.isUpper && fname.data.any Char.isLower)))

/-- Fallback for "vowel" (antidote.py line 508); the iterable `fname.lower()`
of the generator is evaluated in the enclosing scope, so it is safe. -/
def fallbackVowel : PyExpression :=
  envIndependent "sum(1 for c in fname.lower() if c in \x27aeiou\x27) > len(fname) // 4"
    (fun fname =>
      Except.ok (PyVal.bool
        ((pyLower fname).data.countP (fun c => "aeiou".data.contains c) > fname.data.length / 4)))

/-- Fallback for "consonant", also the generic "ratio"/"frequency" fallback
(antidote.py lines 510 and 515); its comprehension bodies reference only
`c`, so it is safe. -/
def fallbackConsonant : PyExpression :=
  envIndependent
    "len([c for c in fname.lower() if c.isalpha() and c not in \x27aeiou\x27]) > len([c for c in fname.lower() if c in \x27aeiou\x27]) and any(c in \x27aeiou\x27 for c in fname.lower())"
    (fun fname =>
      let low := (pyLower fname).data
      Except.ok (PyVal.bool
        ((low.countP (fun c => c.isAlpha && !("aeiou".data.contains c)) >
            low.countP (fun c => "aeiou".data.contains c)) &&
          low.any (fun c => "aeiou".data.contains c))))

/-- Fallback for "ratio"/"frequency" with "character"/"special"
(antidote.py line 513). -/
def fallbackRatioSpecial : PyExpression :=
  envIndependent "sum(1 for c in fname if not c.isalnum() and not c.isspace()) > 1"
    (fun fname =>
      Except.ok (PyVal.bool (fname.data.countP (fun c => !c.isAlphanum && !c.isWhitespace) > 1)))

/-- Fallback for "punctuation" (antidote.py line 517). -/
def fallbackPunct : PyExpression :=
  envIndependent "sum(1 for c in fname if not c.isalnum() and not c.isspace()) > len(fname) // 4"
    (fun fname =>
      Except.ok (PyVal.bool
        (fname.data.countP (fun c => !c.isAlphanum && !c.isWhitespace) > fname.data.length / 4)))

/-- Fallback for "line" / "content" (antidote.py line 520). -/
def fallbackContent : PyExpression :=
  envIndependent "len(fname) > len(set(fname))"
    (fun fname =>
      Except.ok (PyVal.bool (fname.data.length > (dedupChars fname.data).length)))

/-- The final catch-all fallback (antidote.py line 523). -/
def fallbackDefault : PyExpression :=
  envIndependent "not fname.replace(\x27.\x27, \x27\x27).isalnum()"
    (fun fname =>
      Except.ok (PyVal.bool (!pyStrIsAlnum (String.mk (fname.data.filter (fun c => c != '.'))))))

/-- The keyword ladder of fallback expressions (antidote.py lines 478-523),
keyed by substring matches on the lower-cased hypothesis, in source order. -/
def fallback_expression (hypothesis : String) : PyExpression :=
  if strContains (pyLower hypothesis) "even" then fallbackEven
  else if strContains (pyLower hypothesis) "odd" then fallbackOdd
  else if strContains (pyLower hypothesis) "special character" || strContains (pyLower hypothesis) "non-alpha" then fallbackSpecialChar
  else if strContains (pyLower hypothesis) "length" && strContains (pyLower hypothesis) "line" then fallbackLen8
  else if strContains (pyLower hypothesis) "length" || strContains (pyLower hypothesis) "long" then fallbackLen10
  else if strContains (pyLower hypothesis) "short" then fallbackShort
  else if strContains (pyLower hypothesis) "number" || strContains (pyLower hypothesis) "digit" then fallbackDigit
  else if strContains (pyLower hypothesis) "repeated" || strContains (pyLower hypothesis) "repeating" || strContains (pyLower hypothesis) "repetition" then
    (if strContains (pyLower hypothesis) "character" || strContains (pyLower hypothesis) "letter" then fallbackRepeatChar
     else if strContains (pyLower hypothesis) "word" || strContains (pyLower hypothesis) "phrase" then fallbackRepeatWord
     else fallbackRepeatChar)
  else if strContains (pyLower hypothesis) "uppercase" then fallbackUpper
  else if strContains (pyLower hypothesis) "lowercase" then fallbackLower
  else if strContains (pyLower hypothesis) "case" then fallbackCase
  else if strContains (pyLower hypothesis) "vowel" then fallbackVowel
  else if strContains (pyLower hypothesis) "consonant" then fallbackConsonant
  else if strContains (pyLower hypothesis) "ratio" || strContains (pyLower hypothesis) "frequency" then
    (if strContains (pyLower hypothesis) "character" || strContains (pyLower hypothesis) "special" then fallbackRatioSpecial
     else fallbackConsonant)
  else if strContains (pyLower hypothesis) "punctuation" then fallbackPunct
  else if strContains (pyLower hypothesis) "line" || strContains (pyLower hypothesis) "content" then fallbackContent
  else fallbackDefault

/-- `AntidoteIntelligence.create_filter_script` (antidote.py lines 362-528).
The prompt construction is opaque to this model; the gateway outcome
(`call_openai`, line 411, which sits outside the `try` block) is the
`llm_response` argument and a gateway error therefore propagates. On a
received expression, if the static screening and the battery validation all
pass, the expression itself is returned; on any failure control reaches the
`except` branch and the keyword-ladder fallback is returned instead. The
`save_expression` calls are persistence-only (they catch their own errors
and influence nothing here). -/
def create_filter_script (hypothesis : String)
    (llm_response : Except GatewayError PyExpression) : Except GatewayError PyExpression :=
  match llm_response with
  | Except.error e => Except.error e
  | Except.ok expression =>
    if validationPasses expression then Except.ok expression
    else Except.ok (fallback_expression hypothesis)

/-! ## Corpus filter (antidote.py lines 530-654) and confidence (lines 698-790) -/

/-- The constructor arguments of `AntidoteIntelligence.__init__` that the
corpus filter uses (antidote.py lines 108-113). -/
structure AntidoteConfig where
  data_dir : String
  output_dir : String
  expressions_dir : String
  deriving DecidableEq

/-- `self.filtered_list_path` (antidote.py line 113): the fixed default
artifact path `os.path.join(output_dir, "junk_data.txt")`. -/
def filtered_list_path (cfg : AntidoteConfig) : String :=
  cfg.output_dir ++ "/junk_data.txt"

/-- The filesystem as seen through this module: paths mapped to contents. -/
def FsState : Type := List (String × String)

/-- Writing a file (`open(path, "w")` then `write`): replaces any previous
content at that path. -/
def fsWrite (fs : FsState) (path content : String) : FsState :=
  (path, content) :: fs.filter (fun pc => pc.1 != path)

/-- Reading back a file's content, if the path exists. -/
def fsRead (fs : FsState) (path : String) : Option String :=
  (fs.find? (fun pc => pc.1 == path)).map (fun pc => pc.2)

/-- The user-friendly message rewriting inside `safe_eval`
(antidote.py lines 587-594). -/
def friendly_error (e : PyError) : String :=
  if e.name == "ZeroDivisionError" then "division by zero (filter safely skipped this file)"
  else if strContains e.msg "name" && strContains e.msg "is not defined" then
    e.msg ++ " (filter safely skipped this file)"
  else if strContains e.msg "local variable" && strContains e.msg "referenced before assignment" then
    e.msg ++ " (filter safely skipped this file)"
  else e.msg

/-- Step the error tally for one more exception of class `name`
(antidote.py lines 582-585); a Python dict keeps insertion order. -/
def tally (types : List (String × ℕ)) (name : String) : List (String × ℕ) :=
  if types.any (fun p => p.1 == name) then
    types.map (fun p => if p.1 == name then (p.1, p.2 + 1) else p)
  else types ++ [(name, 1)]

/-- `safe_eval` inside `filter_data` (antidote.py lines 543-596): evaluate
the expression on one filename in the restricted production environment
(`evalSafe`); a raised exception is tallied by kind and turned into the
string `"ERROR: <message>"` instead of propagating. -/
def safe_eval (e : PyExpression) (filename : String) (error_types : List (String × ℕ)) :
    PyVal × List (String × ℕ) :=
  match e.evalSafe filename with
  | Except.ok v => (v, error_types)
  | Except.error err =>
    (PyVal.str ("ERROR: " ++ friendly_error err), tally error_types err.name)

/-- The error-marker test of the evaluation loop (antidote.py line 601):
`isinstance(result, str) and result.startswith("ERROR:")`. -/
def isErrorMarker (v : PyVal) : Bool :=
  match v with
  | PyVal.str s => pyStartsWith s "ERROR:"
  | _ => false

/-- The loop-local state of `filter_data` (antidote.py lines 537-540). -/
structure FilterAcc where
  filtered : List String
  sample_evaluations : List (String × PyVal)
  error_count : ℕ
  error_types : List (String × ℕ)

/-- One iteration of the evaluation loop of `filter_data`
(antidote.py lines 598-614), for the file at index `i`. -/
def filter_step (e : PyExpression) (acc : FilterAcc) (i : ℕ) (fname : String) : FilterAcc :=
  let res := safe_eval e fname acc.error_types
  let result := res.1
  let sample2 := if i < 5 then acc.sample_evaluations ++ [(fname, result)]
    else acc.sample_evaluations
  if isErrorMarker result then
    { filtered := acc.filtered, sample_evaluations := sample2,
      error_count := acc.error_count + 1, error_types := res.2 }
  else
    { filtered := if pyTruthy result then acc.filtered ++ [fname] else acc.filtered,
      sample_evaluations := sample2, error_count := acc.error_count, error_types := res.2 }

/-- The evaluation loop `for i, fname in enumerate(files)` of `filter_data`. -/
def filter_loop (e : PyExpression) (i : ℕ) (acc : FilterAcc) : List String → FilterAcc
  | [] => acc
  | f :: fs => filter_loop e (i + 1) (filter_step e acc i f) fs

/-- The result dictionary of `filter_data` (antidote.py lines 633-639),
extended with the loop-local diagnostics the source logs (`error_count`,
`error_types`) and the full match list it materializes to the artifact. -/
structure FilterRunResult where
  filtered_count : ℕ
  sample_evaluations : List (String × PyVal)
  first_matches : List String
  output_path : String
  summary : String
  filtered : List String
  error_count : ℕ
  error_types : List (String × ℕ)

/-- `AntidoteIntelligence.filter_data` (antidote.py lines 530-654). The
directory listing is the `files` argument; the artifact write
(lines 621-630) happens only when some file matched, at the caller-supplied
path or at the fixed `filtered_list_path` default. -/
def filter_data (filter_code : PyExpression) (files : List String) (cfg : AntidoteConfig)
    (output_file : Option String) (fs : FsState) : FilterRunResult × FsState :=
  let acc := filter_loop filter_code 0
    { filtered := [], sample_evaluations := [], error_count := 0, error_types := [] } files
  let output_path := match output_file with
    | Option.some p => p
    | Option.none => filtered_list_path cfg
  let fs2 := if acc.filtered.isEmpty then fs
    else fsWrite fs output_path (joinSep "\n" acc.filtered)
  let summary := if acc.filtered.isEmpty then "No files matched the filter."
    else "Saved " ++ toString acc.filtered.length ++ " matching filenames to \x27" ++
      output_path ++ "\x27."
  ({ filtered_count := acc.filtered.length,
     sample_evaluations := acc.sample_evaluations,
     first_matches := acc.filtered.take 5,
     output_path := output_path,
     summary := summary,
     filtered := acc.filtered,
     error_count := acc.error_count,
     error_types := acc.error_types }, fs2)

/-- The result dictionary of `calculate_confidence`
(antidote.py lines 700-707 and 765-790). -/
structure ConfidenceResult where
  confidence : ℚ
  bad : ℤ
  total : ℤ
  summary : String
  metrics : Metrics
  deriving DecidableEq

/-- `AntidoteIntelligence.calculate_confidence` (antidote.py lines 698-790).
With no filtered samples, the defined zero-case result is returned before
any gateway call. Otherwise the model's reply is consulted: `llm_judgment`
is the parsed `{"bad_files": B, "total_files": T, "confidence": C}` object,
`Option.none` standing for an unparsable reply, which produces the
documented half-bad / 0.5-confidence default (the JSON substring extraction
itself is elided). Numeric string formatting in summaries is not modelled. -/
def calculate_confidence (filtered_samples : List (String × String))
    (llm_judgment : Option (ℤ × ℤ × ℚ)) : ConfidenceResult :=
  if filtered_samples.isEmpty then
    { confidence := 0, bad := 0, total := 0,
      summary := "No files to analyze",
      metrics := calculate_metrics 0 0 0 }
  else
    match llm_judgment with
    | Option.some (bad_files, total_files, confidence) =>
      { confidence := pyRound2 confidence, bad := bad_files, total := total_files,
        summary := "Confidence summary",
        metrics := calculate_metrics bad_files total_files confidence }
    | Option.none =>
      let total : ℤ := filtered_samples.length
      let bad : ℤ := pyTrunc ((total : ℚ) * ((5 : ℚ)/10))
      { confidence := (5 : ℚ)/10, bad := bad, total := total,
        summary := "Confidence summary (default fallback)",
        metrics := calculate_metrics bad total ((5 : ℚ)/10) }

/-! ## Derived views of the filter loop, and concrete probe values -/

/-- The value `safe_eval` produces for one filename (its first component does
not depend on the running tally). -/
def shown_value (e : PyExpression) (fname : String) : PyVal := (safe_eval e fname []).1

/-- Does the loop keep this filename in the match list: not an error marker
and truthy (antidote.py lines 601-614)? -/
def keep_file (e : PyExpression) (fname : String) : Bool :=
  !isErrorMarker (shown_value e fname) && pyTruthy (shown_value e fname)

/-- Does the loop classify this filename's evaluation as an error? -/
def is_marked (e : PyExpression) (fname : String) : Bool :=
  isErrorMarker (shown_value e fname)

/-- The per-file effect of `safe_eval` on the error tally. -/
def tally_step (e : PyExpression) (ts : List (String × ℕ)) (fname : String) :
    List (String × ℕ) :=
  match e.evalSafe fname with
  | Except.ok _ => ts
  | Except.error err => tally ts err.name

/-- The default constructor arguments of `AntidoteIntelligence.__init__`
(antidote.py line 108). -/
def demo_config : AntidoteConfig :=
  { data_dir := "./data", output_dir := "./junk_data", expressions_dir := "./expressions_ran" }

/-- A model response whose text trips the banned-module screen (`"os."`
occurs in it); its denotation raises `NameError` in both environments,
since the module name `os` is defined in neither. -/
def bad_module_response : PyExpression :=
  envIndependent "os.path.basename(fname).isdigit()"
    (fun _ => Except.error { name := "NameError", msg := "name \x27os\x27 is not defined" })

/-- A model response that passes every static screen and evaluates cleanly
(in either environment - it uses no builtin names at all) on all nine
all-ASCII battery filenames, yet raises `ZeroDivisionError` on any filename
containing the non-ASCII character é: the denotation of the ternary is
`True` unless é occurs in `fname`, in which case `1 // 0` is evaluated. -/
def unicode_probe : PyExpression :=
  envIndependent "(1 // 0 == 0) if \x27é\x27 in fname else True"
    (fun fname =>
      if strContains fname "é" then
        Except.error { name := "ZeroDivisionError", msg := "integer division or modulo by zero" }
      else Except.ok (PyVal.bool true))

/-- An expression whose evaluation raises on every filename. -/
def always_raises : PyExpression :=
  envIndependent "1 // 0 == 0"
    (fun _ =>
      Except.error { name := "ZeroDivisionError", msg := "integer division or modulo by zero" })

/-- The store state after registering the same hypothesis text twice through
the public `add_hypothesis` operation (as `generate_hypothesis` may do on its
forced-uniqueness path, and as nothing in `HypothesisStore` prevents). -/
def c4_state : HypothesisStoreState :=
  (add_hypothesis
    (add_hypothesis empty_store "Files with even numbers contain bad data" 1
      "2025-01-01 10:00:00").2
    "Files with even numbers contain bad data" 2 "2025-01-01 10:05:00").2

/-- First `filter_data` run with default arguments on a fresh filesystem. -/
def c9_run1 : FilterRunResult × FsState :=
  filter_data fallbackDigit ["poisoned_41.txt"] demo_config Option.none []

/-- Second `filter_data` run with default arguments, on the filesystem the
first run produced. -/
def c9_run2 : FilterRunResult × FsState :=
  filter_data fallbackDigit ["sample_77.txt"] demo_config Option.none c9_run1.2

/-! ## Theorems -/

/-- Claim C3: for every pair of hypothesis texts whose sorted word lists agree
after lower-casing and removing all non-alphanumeric, non-space characters,
`HypothesisStore._get_hypothesis_hash` returns the same fingerprint. -/
theorem c3_fingerprint_invariant (a b : String)
    (h : normalized_words a = normalized_words b) :
    get_hypothesis_hash a = get_hypothesis_hash b := by
  unfold get_hypothesis_hash
  rw [h]

/-- Witness for C3 at the claim's own example: the fingerprints of
"Files With Even Numbers" and "even numbers with files" coincide. -/
theorem c3_witness :
    get_hypothesis_hash "Files With Even Numbers" =
      get_hypothesis_hash "even numbers with files" :=
  c3_fingerprint_invariant "Files With Even Numbers" "even numbers with files" (by decide)

/-- Claim C10: `is_new_hypothesis` (and the other read accessors) leave both
the in-memory store data and the persisted file unchanged, while
`add_hypothesis` is the operation that writes the appended document to the
store file. -/
theorem c10_is_new_hypothesis_readonly (s : HypothesisStoreState) (hyp now : String)
    (run_id max_length : ℕ) :
    (is_new_hypothesis s hyp).2 = s ∧
    (get_all_hypotheses s).2 = s ∧
    (get_history_for_prompt s max_length).2 = s ∧
    (add_hypothesis s hyp run_id now).2.persisted =
      Option.some
        { hypotheses := s.data.hypotheses ++
            [{ hypothesis := hyp, run_id := run_id, timestamp := now }],
          hash_values := s.data.hash_values ++ [get_hypothesis_hash hyp] } := by
  refine ⟨rfl, rfl, ?_, rfl⟩
  unfold get_history_for_prompt
  split <;> rfl

/-- Counterexample for C4: after two `add_hypothesis` calls with the same
text — a sequence of public operations nothing in `HypothesisStore`
prevents — the store holds two hypotheses and their fingerprint list has a
duplicate. -/
theorem c4_counterexample :
    c4_state.data.hypotheses.length = 2 ∧ ¬ c4_state.data.hash_values.Nodup := by
  constructor
  · rfl
  · decide

/-- Claim C4 (amended): the store is append-only — `add_hypothesis` only
appends and the read operations change nothing — and the no-duplicate
fingerprint invariant is preserved by an `add_hypothesis` that is guarded by
`is_new_hypothesis`; an unguarded add can duplicate fingerprints. -/
theorem c4_append_only_guarded_nodup (s : HypothesisStoreState) (hyp now : String)
    (run_id : ℕ) :
    (add_hypothesis s hyp run_id now).2.data.hypotheses =
      s.data.hypotheses ++ [{ hypothesis := hyp, run_id := run_id, timestamp := now }] ∧
    (add_hypothesis s hyp run_id now).2.data.hash_values =
      s.data.hash_values ++ [get_hypothesis_hash hyp] ∧
    (is_new_hypothesis s hyp).2 = s ∧
    ((is_new_hypothesis s hyp).1 = true → s.data.hash_values.Nodup →
      (add_hypothesis s hyp run_id now).2.data.hash_values.Nodup) := by
  refine ⟨rfl, rfl, rfl, ?_⟩
  intro hnew hnd
  have hmem : get_hypothesis_hash hyp ∉ s.data.hash_values := by
    simp only [is_new_hypothesis, Bool.not_eq_true'] at hnew
    simpa using hnew
  show (s.data.hash_values ++ [get_hypothesis_hash hyp]).Nodup
  simp [List.nodup_append, hnd, hmem]

/-- Witness for C4's amended statement: a guarded add on the empty store
keeps the fingerprint list duplicate-free. -/
theorem c4_witness :
    (add_hypothesis empty_store "Files with even numbers contain bad data" 1
      "2025-01-01 10:00:00").2.data.hash_values.Nodup :=
  (c4_append_only_guarded_nodup empty_store "Files with even numbers contain bad data"
    "2025-01-01 10:00:00" 1).2.2.2 (by decide) (by decide)

/-- Counterexample for C1: when the gateway call itself fails (as
`call_openai` does once its retries are exhausted — it sits outside the
`try` block of `create_filter_script`), the error propagates to the caller
instead of a fallback being returned. -/
theorem c1_counterexample :
    create_filter_script "files with even numbers in their names"
      (Except.error { msg := "Connection error after 3 retries" }) =
    Except.error { msg := "Connection error after 3 retries" } := rfl

/-- Claim C1 (amended): whenever the gateway call returns a response,
`create_filter_script` returns an expression and never an error; in
particular, whenever the returned expression fails the static screening or
the battery validation, the keyword-ladder fallback is returned. -/
theorem c1_no_raise_and_fallback (hypothesis : String) (response : PyExpression) :
    exceptOk (create_filter_script hypothesis (Except.ok response)) = true ∧
    (validationPasses response = false →
      create_filter_script hypothesis (Except.ok response) =
        Except.ok (fallback_expression hypothesis)) := by
  constructor
  · have hred : create_filter_script hypothesis (Except.ok response) =
        (if validationPasses response then Except.ok response
         else Except.ok (fallback_expression hypothesis)) := rfl
    rw [hred]
    split <;> rfl
  · intro hv
    simp [create_filter_script, hv]

/-- Witness for C1's amended statement: a response using the banned `os`
module is replaced by the keyword-ladder fallback. -/
theorem c1_witness :
    create_filter_script "files with even numbers in their names"
      (Except.ok bad_module_response) =
    Except.ok (fallback_expression "files with even numbers in their names") :=
  (c1_no_raise_and_fallback "files with even numbers in their names"
    bad_module_response).2 (by decide)

/-- Counterexample for C6: at bad_files = 5, confidence = 0.3 the source's
`int()` truncation gives 16 while the claim's round-to-nearest formula gives
17, so `calculate_metrics` does not round the quotient to the nearest
integer. -/
theorem c6_counterexample :
    estimated_total_bad 5 ((3 : ℚ)/10) = 16 ∧
    claim_estimated_total_bad 5 ((3 : ℚ)/10) = 17 := by
  constructor
  · norm_num [estimated_total_bad, pyTrunc]
  · norm_num [claim_estimated_total_bad, pyRound]

/-- Claim C6 (amended): for every bad-file count B ≥ 0 and confidence C,
`calculate_metrics` computes `estimated_total_bad` as
`max(1, ⌊B / max(0.1, C)⌋)` — the quotient is truncated, which for this
nonnegative quotient is the floor — and the divisor is never zero because it
is floored at 0.1. -/
theorem c6_truncating_extrapolation (bad_files : ℤ) (confidence : ℚ)
    (h : 0 ≤ bad_files) :
    estimated_total_bad bad_files confidence =
      max 1 ⌊(bad_files : ℚ) / max ((1 : ℚ)/10) confidence⌋ ∧
    max ((1 : ℚ)/10) confidence ≠ 0 := by
  have hpos : (0 : ℚ) < max ((1 : ℚ)/10) confidence :=
    lt_of_lt_of_le (by norm_num) (le_max_left _ _)
  constructor
  · unfold estimated_total_bad pyTrunc
    rw [if_pos]
    exact div_nonneg (by exact_mod_cast h) hpos.le
  · exact ne_of_gt hpos

/-- Witness for C6's amended statement at B = 8, C = 0.4. -/
theorem c6_witness :
    estimated_total_bad 8 ((2 : ℚ)/5) =
      max 1 ⌊(((8 : ℤ) : ℚ)) / max ((1 : ℚ)/10) ((2 : ℚ)/5)⌋ ∧
    max ((1 : ℚ)/10) ((2 : ℚ)/5) ≠ 0 :=
  c6_truncating_extrapolation 8 ((2 : ℚ)/5) (by norm_num)

/-- Claim C7: at bad_files = 8, total_files = 10, confidence = 0.4 the
extrapolated total is 20 and the false negatives 12; `calculate_metrics`
returns precision 0.8, recall 0.4, f1 0.53 (the unrounded value is
8/15 ≈ 0.533), and a verdict of score 0.54 whose text is the "Fair" bucket. -/
theorem c7_worked_example :
    estimated_total_bad 8 ((2 : ℚ)/5) = 20 ∧
    false_negatives 8 ((2 : ℚ)/5) = 12 ∧
    (calculate_metrics 8 10 ((2 : ℚ)/5)).precision = (8 : ℚ)/10 ∧
    (calculate_metrics 8 10 ((2 : ℚ)/5)).recall_metric = (4 : ℚ)/10 ∧
    (calculate_metrics 8 10 ((2 : ℚ)/5)).f1_score = (53 : ℚ)/100 ∧
    2 * (((8 : ℚ)/10) * ((4 : ℚ)/10)) / max ((1 : ℚ)/1000) ((8 : ℚ)/10 + (4 : ℚ)/10) = 8/15 ∧
    (calculate_metrics 8 10 ((2 : ℚ)/5)).verdict.score = (54 : ℚ)/100 ∧
    (calculate_metrics 8 10 ((2 : ℚ)/5)).verdict.text =
      "Fair - This hypothesis finds some bad data but may have false positives" := by
  refine ⟨?_, ?_, ?_, ?_, ?_, ?_, ?_, ?_⟩ <;>
    norm_num [calculate_metrics, generate_verdict, false_negatives, estimated_total_bad,
      pyTrunc, pyRound2, pyRound]

/-- Claim C8: with an empty sample map, `calculate_confidence` returns the
defined zero-case result (confidence 0, bad 0, total 0) before any gateway
call, and every division `calculate_metrics 0 0 0` performs has a nonzero
divisor. -/
theorem c8_zero_case (llm_judgment : Option (ℤ × ℤ × ℚ)) :
    calculate_confidence [] llm_judgment =
      { confidence := 0, bad := 0, total := 0,
        summary := "No files to analyze",
        metrics := calculate_metrics 0 0 0 } ∧
    (metrics_divisors 0 0 0).all (fun d => d != 0) = true := by
  refine ⟨rfl, ?_⟩
  norm_num [metrics_divisors, estimated_total_bad, pyTrunc,
    List.all_append, List.all_cons, List.all_nil]

/-- Counterexample for C2: two independent refutations. First, the
"repeated" keyword ladder path: on a hypothesis mentioning repeated
characters, a response that fails validation is replaced by
`fallbackRepeatChar`, which raises `NameError` on the battery filename
"sample.txt" (as on every filename containing a letter) in both the
validation and the production environment - so `create_filter_script`
does return expressions that throw on battery names. Second, the battery
composition: all nine battery names are pure ASCII, so the battery contains
no Unicode name, and an expression clean on the whole battery
(`unicode_probe`) is returned although it raises on the Unicode name
"résumé.txt". -/
theorem c2_counterexample :
    test_filenames.all (fun n => n.data.all (fun c => c.toNat < 128)) = true ∧
    "sample.txt" ∈ test_filenames ∧
    create_filter_script "files with repeated characters in their names"
      (Except.ok bad_module_response) = Except.ok fallbackRepeatChar ∧
    exceptOk (fallbackRepeatChar.evalSafe "sample.txt") = false ∧
    exceptOk (fallbackRepeatChar.evalFull "sample.txt") = false ∧
    ("résumé.txt").data.all (fun c => c.toNat < 128) = false ∧
    create_filter_script "files with unusual characters" (Except.ok unicode_probe) =
      Except.ok unicode_probe ∧
    exceptOk (unicode_probe.evalSafe "résumé.txt") = false := by
  refine ⟨by decide, by decide, rfl, by decide, by decide, by decide, ?_, by decide⟩
  have hv : validationPasses unicode_probe = true := by decide
  have hred : create_filter_script "files with unusual characters" (Except.ok unicode_probe) =
      (if validationPasses unicode_probe then Except.ok unicode_probe
       else Except.ok (fallback_expression "files with unusual characters")) := rfl
  rw [hred, if_pos hv]

/-- Claim C2 (amended to its provable scope): an expression that
`create_filter_script` returns after its validation passed evaluates
without raising, in the validation-time environment, on every filename of
the nine-name all-ASCII battery. The guarantee stops there: fallback-path
returns are unvalidated, and the "repeated" fallbacks - identical in the
two environments - raise `NameError` exactly on the filenames containing a
letter, which includes eight of the nine battery names; nor does
validation-time safety transfer to the restricted production environment,
whose builtins differ. -/
theorem c2_battery_safety_scope (hypothesis : String) (response e : PyExpression)
    (fname : String)
    (h : create_filter_script hypothesis (Except.ok response) = Except.ok e)
    (hv : validationPasses response = true) :
    test_filenames.all (fun n => exceptOk (e.evalFull n)) = true ∧
    fallbackRepeatChar.evalSafe fname = fallbackRepeatChar.evalFull fname ∧
    (exceptOk (fallbackRepeatChar.evalSafe fname) = false ↔
      fname.data.any Char.isAlpha = true) := by
  refine ⟨?_, rfl, ?_⟩
  · have hred : create_filter_script hypothesis (Except.ok response) =
        (if validationPasses response then Except.ok response
         else Except.ok (fallback_expression hypothesis)) := rfl
    rw [hred, if_pos hv] at h
    injection h with h2
    subst h2
    simp only [validationPasses, Bool.and_eq_true] at hv
    exact hv.2
  · by_cases ha : fname.data.any Char.isAlpha = true
    · simp [fallbackRepeatChar, envIndependent, repeat_fallback_raises, ha, exceptOk]
    · simp [fallbackRepeatChar, envIndependent, repeat_fallback_raises, ha, exceptOk]

/-- Witness for C2's amended statement, at the validated expression
`len(fname) > 10` and the battery filename "sample.txt". -/
theorem c2_witness :
    test_filenames.all (fun n => exceptOk (fallbackLen10.evalFull n)) = true ∧
    fallbackRepeatChar.evalSafe "sample.txt" = fallbackRepeatChar.evalFull "sample.txt" ∧
    (exceptOk (fallbackRepeatChar.evalSafe "sample.txt") = false ↔
      ("sample.txt").data.any Char.isAlpha = true) :=
  c2_battery_safety_scope "filenames that are long" fallbackLen10 fallbackLen10 "sample.txt"
    rfl (by decide)

/-- The value component of `safe_eval` does not depend on the running tally. -/
theorem safe_eval_fst (e : PyExpression) (f : String) (ts : List (String × ℕ)) :
    (safe_eval e f ts).1 = shown_value e f := by
  unfold shown_value safe_eval
  cases h : e.evalSafe f <;> simp [h]

/-- The tally component of `safe_eval` is the per-file tally step. -/
theorem safe_eval_snd (e : PyExpression) (f : String) (ts : List (String × ℕ)) :
    (safe_eval e f ts).2 = tally_step e ts f := by
  unfold safe_eval tally_step
  cases h : e.evalSafe f <;> simp [h]

/-- One loop iteration, described field by field. -/
theorem filter_step_spec (e : PyExpression) (acc : FilterAcc) (i : ℕ) (f : String) :
    filter_step e acc i f =
      { filtered := acc.filtered ++ (if keep_file e f then [f] else []),
        sample_evaluations := acc.sample_evaluations ++
          (if i < 5 then [(f, shown_value e f)] else []),
        error_count := acc.error_count + (if is_marked e f then 1 else 0),
        error_types := tally_step e acc.error_types f } := by
  by_cases hm : isErrorMarker (shown_value e f) = true <;>
  by_cases ht : pyTruthy (shown_value e f) = true <;>
  by_cases hi : i < 5 <;>
    simp [filter_step, safe_eval_fst, safe_eval_snd, keep_file, is_marked, hm, ht, hi]

/-- The whole evaluation loop, described field by field: matches are the kept
files in order, the diagnostic sample covers exactly the first five files,
the error count is the number of marker outcomes, and the tally folds the
per-file steps. -/
theorem filter_loop_spec (e : PyExpression) (files : List String) :
    ∀ (i : ℕ) (acc : FilterAcc),
    filter_loop e i acc files =
      { filtered := acc.filtered ++ files.filter (keep_file e),
        sample_evaluations := acc.sample_evaluations ++
          (files.take (5 - i)).map (fun f => (f, shown_value e f)),
        error_count := acc.error_count + (files.filter (is_marked e)).length,
        error_types := files.foldl (tally_step e) acc.error_types } := by
  induction files with
  | nil => intro i acc; simp [filter_loop]
  | cons f fs ih =>
    intro i acc
    rw [filter_loop, ih, filter_step_spec]
    congr 1
    · rw [List.filter_cons]
      by_cases hk : keep_file e f = true
      · simp [hk]
      · simp [hk]
    · by_cases hi : i < 5
      · have h5 : 5 - i = (5 - (i + 1)) + 1 := by omega
        simp [hi, h5]
      · have h5 : 5 - i = 0 := by omega
        have h5b : 5 - (i + 1) = 0 := by omega
        simp [hi, h5, h5b]
    · rw [List.filter_cons]
      by_cases hm : is_marked e f = true
      · simp [hm]
        omega
      · simp [hm]

/-- The error marker string always starts with `"ERROR:"`. -/
theorem marker_has_prefix (m : String) : pyStartsWith ("ERROR: " ++ m) "ERROR:" = true := rfl

/-- A raised evaluation produces a marker outcome. -/
theorem eval_error_marked (e : PyExpression) (f : String)
    (h : exceptOk (e.evalSafe f) = false) : is_marked e f = true := by
  unfold is_marked shown_value safe_eval
  cases he : e.evalSafe f with
  | ok v =>
    rw [he] at h
    simp [exceptOk] at h
  | error err =>
    exact marker_has_prefix (friendly_error err)

/-- Claim C5: `filter_data` catches every per-filename failure individually —
processing continues over the whole corpus — tallies errors by exception
kind in evaluation order, keeps verbatim evaluation results only for the
first five filenames, and excludes every filename whose evaluation raised
from the match list. -/
theorem c5_per_file_isolation (e : PyExpression) (files : List String)
    (cfg : AntidoteConfig) (output_file : Option String) (fs : FsState) :
    (filter_data e files cfg output_file fs).1.filtered = files.filter (keep_file e) ∧
    (filter_data e files cfg output_file fs).1.sample_evaluations =
      (files.take 5).map (fun f => (f, shown_value e f)) ∧
    (filter_data e files cfg output_file fs).1.error_count =
      (files.filter (is_marked e)).length ∧
    (filter_data e files cfg output_file fs).1.error_types =
      files.foldl (tally_step e) [] ∧
    ∀ f, exceptOk (e.evalSafe f) = false →
      f ∉ (filter_data e files cfg output_file fs).1.filtered := by
  have hloop := filter_loop_spec e files 0
    { filtered := [], sample_evaluations := [], error_count := 0, error_types := [] }
  have hfil : (filter_data e files cfg output_file fs).1.filtered =
      files.filter (keep_file e) := by
    simp [filter_data, hloop]
  refine ⟨hfil, ?_, ?_, ?_, ?_⟩
  · simp [filter_data, hloop]
  · simp [filter_data, hloop]
  · simp [filter_data, hloop]
  · intro f hferr hmem
    rw [hfil] at hmem
    have hk := (List.mem_filter.mp hmem).2
    have hmark : isErrorMarker (shown_value e f) = true := eval_error_marked e f hferr
    simp [keep_file, hmark] at hk

/-- Witness for C5: a filename on which the expression raises is excluded
from the match list. -/
theorem c5_witness :
    "poisoned_01.txt" ∉
      (filter_data always_raises ["poisoned_01.txt"] demo_config Option.none []).1.filtered :=
  (c5_per_file_isolation always_raises ["poisoned_01.txt"] demo_config
    Option.none []).2.2.2.2 "poisoned_01.txt" (by decide)

/-- Reading back a just-written path returns the written content. -/
theorem fsRead_fsWrite (fs : FsState) (p c : String) :
    fsRead (fsWrite fs p c) p = Option.some c := by
  unfold fsRead fsWrite
  rw [List.find?_cons_of_pos]
  · rfl
  · simp

/-- When some file matched, a default-argument `filter_data` run writes its
match list to the fixed `filtered_list_path`. -/
theorem filter_data_writes (e : PyExpression) (files : List String)
    (cfg : AntidoteConfig) (fs : FsState)
    (h : (filter_data e files cfg Option.none fs).1.filtered ≠ []) :
    fsRead (filter_data e files cfg Option.none fs).2 (filtered_list_path cfg) =
      Option.some (joinSep "\n" (filter_data e files cfg Option.none fs).1.filtered) := by
  have hproj : (filter_data e files cfg Option.none fs).1.filtered =
      (filter_loop e 0
        { filtered := [], sample_evaluations := [], error_count := 0, error_types := [] }
        files).filtered := rfl
  rw [hproj] at h
  have hne : ((filter_loop e 0
      { filtered := [], sample_evaluations := [], error_count := 0, error_types := [] }
      files).filtered).isEmpty = false := by
    cases hh : (filter_loop e 0
        { filtered := [], sample_evaluations := [], error_count := 0, error_types := [] }
        files).filtered with
    | nil => exact absurd hh h
    | cons a l => rfl
  have h2 : (filter_data e files cfg Option.none fs).2 =
      fsWrite fs (filtered_list_path cfg)
        (joinSep "\n" (filter_loop e 0
          { filtered := [], sample_evaluations := [], error_count := 0, error_types := [] }
          files).filtered) := by
    simp [filter_data, hne]
  rw [h2, fsRead_fsWrite, hproj]

/-- Counterexample for C9: two successive default-argument runs of the same
instance write to the same fixed path `./junk_data/junk_data.txt`, and the
second run's artifact replaces the first run's. -/
theorem c9_counterexample :
    c9_run1.1.output_path = c9_run2.1.output_path ∧
    fsRead c9_run1.2 (filtered_list_path demo_config) = Option.some "poisoned_41.txt" ∧
    fsRead c9_run2.2 (filtered_list_path demo_config) = Option.some "sample_77.txt" :=
  ⟨rfl, by decide, by decide⟩

/-- Claim C9 (amended): `filter_data` writes its match list to the
caller-supplied path, or — with default arguments — to the one fixed
location `filtered_list_path`; that location is shared by every
default-argument run of the instance, so a later run with a nonempty match
list overwrites the earlier artifact (a run with no matches writes
nothing). -/
theorem c9_default_path_overwrites (cfg : AntidoteConfig) (e1 e2 : PyExpression)
    (files1 files2 : List String) (fs : FsState)
    (h : (filter_data e2 files2 cfg Option.none
        (filter_data e1 files1 cfg Option.none fs).2).1.filtered ≠ []) :
    (filter_data e1 files1 cfg Option.none fs).1.output_path = filtered_list_path cfg ∧
    (filter_data e2 files2 cfg Option.none
        (filter_data e1 files1 cfg Option.none fs).2).1.output_path = filtered_list_path cfg ∧
    fsRead (filter_data e2 files2 cfg Option.none
        (filter_data e1 files1 cfg Option.none fs).2).2 (filtered_list_path cfg) =
      Option.some (joinSep "\n"
        (filter_data e2 files2 cfg Option.none
          (filter_data e1 files1 cfg Option.none fs).2).1.filtered) :=
  ⟨rfl, rfl, filter_data_writes e2 files2 cfg (filter_data e1 files1 cfg Option.none fs).2 h⟩

/-- Witness for C9's amended statement: with two concrete runs, both default
paths agree and the surviving artifact is the second run's match list. -/
theorem c9_witness :
    (filter_data fallbackDigit ["data_8.txt"] demo_config Option.none []).1.output_path =
      filtered_list_path demo_config ∧
    (filter_data fallbackDigit ["data_9.txt"] demo_config Option.none
        (filter_data fallbackDigit ["data_8.txt"] demo_config Option.none []).2).1.output_path =
      filtered_list_path demo_config ∧
    fsRead (filter_data fallbackDigit ["data_9.txt"] demo_config Option.none
        (filter_data fallbackDigit ["data_8.txt"] demo_config Option.none []).2).2
        (filtered_list_path demo_config) =
      Option.some (joinSep "\n"
        (filter_data fallbackDigit ["data_9.txt"] demo_config Option.none
          (filter_data fallbackDigit ["data_8.txt"] demo_config Option.none []).2).1.filtered) :=
  c9_default_path_overwrites demo_config fallbackDigit fallbackDigit
    ["data_8.txt"] ["data_9.txt"] [] (by decide)
